import Mathlib

/-!
Shallow embedding of the search-orchestration pipeline of
`azure_search_mcp` (files `chain.py` and `azure_search.py`).

The pipeline is a small stage graph over a mutable state record:
`validate_input → search_documents → prepare_context →
{summarize_results | analyze_results | format_structured} → END`,
with a `handle_error` node reachable from the two conditional edges.
External effects (the retrieval call, the three LLM chains) are modelled
by explicit outcome values passed into the graph; wall-clock time is not
modelled, only the declared budget constants and the state transition
the code performs on a reported timeout.
-/

namespace AzureSearchMCP

/-- Characters removed by Python str.strip with no argument (the ASCII
whitespace class: space, tab, newline, carriage return, vertical tab,
form feed). -/
def isPySpace (c : Char) : Bool :=
  c = ' ' || c = '\t' || c = '\n' || c = '\r' || c.toNat = 11 || c.toNat = 12

/-- Embedding of Python str.strip on a character list: drop leading and
trailing whitespace. -/
def pyStripL (l : List Char) : List Char :=
  ((l.dropWhile isPySpace).reverse.dropWhile isPySpace).reverse

/-- Embedding of Python str.strip on strings. -/
def pyStrip (s : String) : String :=
  String.mk (pyStripL s.data)

/-- A document held in the pipeline state (`documents_to_dict` output as
consumed by `_prepare_context`): `doc.get("content", "")` and
`doc.get("title", default)` read optional keys, so both fields are
optional here. -/
structure Doc where
  title : Option String
  content : Option String
  deriving DecidableEq

/-- The `SearchState` TypedDict of chain.py. -/
structure SearchState where
  query : String
  search_type : String
  top_k : Int
  output_format : String
  documents : List Doc
  context : String
  raw_context : String
  error : Option String
  deriving DecidableEq

/-- Truthiness of the optional error string as Python bool() computes it
in the routers and in the final `success` projection: None and the empty
string are falsy. -/
def errTruthy : Option String → Bool
  | none => false
  | some m => !(m == "")

/-- Node `_validate_input` of chain.py. -/
def validate_input (s : SearchState) : SearchState :=
  if pyStrip s.query = "" then { s with error := some "Query cannot be empty" }
  else if s.top_k ≤ 0 then { s with error := some "top_k must be greater than 0" }
  else s

/-- Outcome of the retrieval call made by node `_search_documents`:
either a document list, or the node-level 45-second `asyncio.wait_for`
fired (the formatted elapsed seconds are carried as a string), or the
awaited call raised. -/
inductive SearchOutcome where
  | success (docs : List Doc)
  | nodeTimeout (elapsed : String)
  | raised (msg : String)
  deriving DecidableEq

/-- Node `_search_documents` of chain.py: on success store the converted
documents; on `asyncio.TimeoutError` record the timeout message and clear
the documents; on any other exception record a search error and clear
the documents. -/
def search_documents (outcome : SearchOutcome) (s : SearchState) : SearchState :=
  match outcome with
  | .success docs => { s with documents := docs }
  | .nodeTimeout elapsed =>
      { s with error := some ("Node search timed out after " ++ elapsed ++ " seconds"),
               documents := [] }
  | .raised msg =>
      { s with error := some ("Search error: " ++ msg), documents := [] }

/-- Section rendered for one document with 1-based index i inside
`_prepare_context`. -/
def render_section (i : Nat) (d : Doc) : String :=
  "## " ++ d.title.getD ("Document " ++ toString i) ++ "\n\n" ++ d.content.getD ""

/-- The enumerate(documents, 1) loop of `_prepare_context`. -/
def context_sections : Nat → List Doc → List String
  | _, [] => []
  | i, d :: ds => render_section i d :: context_sections (i + 1) ds

/-- Raw context computed by `_prepare_context` as a function of the
document list. -/
def prepare_raw_context (docs : List Doc) : String :=
  if docs = [] then "No documents found for the given query."
  else String.intercalate "\n\n---\n\n" (context_sections 1 docs)

/-- Node `_prepare_context` of chain.py. -/
def prepare_context (s : SearchState) : SearchState :=
  { s with raw_context := prepare_raw_context s.documents }

/-- Outcome of invoking one LCEL chain: generated text, or the awaited
call raised. -/
inductive LLMOutcome where
  | output (text : String)
  | raised (msg : String)
  deriving DecidableEq

/-- Outcomes for the three LCEL chains; all three chains exist exactly
when the Gemini LLM is configured, so the graph receives an
`Option LLMEnv`. -/
structure LLMEnv where
  summarize : LLMOutcome
  analyze : LLMOutcome
  format_structured : LLMOutcome
  deriving DecidableEq

/-- Node `_summarize_results` of chain.py. -/
def summarize_results (chain : Option LLMOutcome) (s : SearchState) : SearchState :=
  match chain with
  | none => { s with error := some "Summarizer chain is not available (LLM not configured)." }
  | some (.output t) => { s with context := t }
  | some (.raised m) => { s with error := some ("Error during summarization: " ++ m) }

/-- Node `_analyze_results` of chain.py. -/
def analyze_results (chain : Option LLMOutcome) (s : SearchState) : SearchState :=
  match chain with
  | none => { s with error := some "Analyzer chain is not available (LLM not configured)." }
  | some (.output t) => { s with context := t }
  | some (.raised m) => { s with error := some ("Error during analysis: " ++ m) }

/-- Node `_format_results_structured` of chain.py: with no chain it falls
back to a deterministic listing and sets no error. -/
def format_results_structured (chain : Option LLMOutcome) (s : SearchState) : SearchState :=
  match chain with
  | none =>
      { s with context :=
          "Found " ++ toString s.documents.length ++ " documents.\n\n" ++ s.raw_context }
  | some (.output t) => { s with context := t }
  | some (.raised m) => { s with error := some ("Error during structured formatting: " ++ m) }

/-- Python str(x) for the optional error field: the error key is always
present in the state dict, so `state.get("error", default)` returns the
stored value, and an f-string renders None as "None". -/
def pyShowErr : Option String → String
  | none => "None"
  | some m => m

/-- Node `_handle_error` of chain.py. -/
def handle_error (s : SearchState) : SearchState :=
  { s with context := "Error: " ++ pyShowErr s.error }

/-- Conditional edge after `validate_input`. -/
def should_continue_after_validation (s : SearchState) : String :=
  if errTruthy s.error then "error" else "continue"

/-- Conditional edge after `search_documents`. -/
def should_continue_after_search (s : SearchState) : String :=
  if errTruthy s.error then "error" else "continue"

/-- Conditional edge after `prepare_context`: returns the output format
label itself. -/
def route_to_processor (s : SearchState) : String :=
  s.output_format

/-- Initial state built at the top of `run`. -/
def initial_state (query search_type : String) (top_k : Int) (output_format : String) :
    SearchState :=
  { query := query, search_type := search_type, top_k := top_k,
    output_format := output_format, documents := [], context := "",
    raw_context := "", error := none }

/-- One execution of the compiled stage graph. The result carries the
final state together with the number of retrieval calls performed. A
routing label outside the three-key edge mapping raises inside the graph
runtime, modelled as `Except.error`. -/
def run_graph (llm : Option LLMEnv) (search : SearchOutcome) (s0 : SearchState) :
    Except String (SearchState × Nat) :=
  let s1 := validate_input s0
  if should_continue_after_validation s1 = "error" then .ok (handle_error s1, 0)
  else
    let s2 := search_documents search s1
    if should_continue_after_search s2 = "error" then .ok (handle_error s2, 1)
    else
      let s3 := prepare_context s2
      if route_to_processor s3 = "summary" then
        .ok (summarize_results (llm.map LLMEnv.summarize) s3, 1)
      else if route_to_processor s3 = "analysis" then
        .ok (analyze_results (llm.map LLMEnv.analyze) s3, 1)
      else if route_to_processor s3 = "structured" then
        .ok (format_results_structured (llm.map LLMEnv.format_structured) s3, 1)
      else .error ("Branch not found: " ++ route_to_processor s3)

/-- Metadata dictionary computed at the end of `run`. -/
structure Metadata where
  total_results : Nat
  search_type : String
  query : String
  output_format : String
  used_llm : Bool
  deriving DecidableEq

/-- Final response dictionary returned by `run`. -/
structure PipelineResponse where
  context : String
  metadata : Metadata
  documents : List Doc
  success : Bool
  deriving DecidableEq

/-- The public `run` method of AzureSearchChain: build the initial state,
execute the graph, and project the final state into the response. The
number of retrieval calls is carried through for the frame statements. -/
def run (llm : Option LLMEnv) (search : SearchOutcome) (query : String)
    (search_type : String) (top_k : Int) (output_format : String) :
    Except String (PipelineResponse × Nat) :=
  match run_graph llm search (initial_state query search_type top_k output_format) with
  | .error e => .error e
  | .ok (s, n) =>
      .ok ({ context := s.context,
             metadata := { total_results := s.documents.length,
                           search_type := s.search_type,
                           query := s.query,
                           output_format := s.output_format,
                           used_llm := llm.isSome },
             documents := s.documents,
             success := !errTruthy s.error }, n)

/-- Budget of the innermost retrieval call, azure_search.py: the
`asyncio.wait_for` around `run_in_executor` uses 25.0 seconds. -/
def retrieval_call_timeout : Nat := 25

/-- Budget wrapping `_execute_search` inside
`AzureSearchClient.search_documents`, 30.0 seconds. -/
def execute_search_timeout : Nat := 30

/-- Stage budget of node `_search_documents` in chain.py, 45.0 seconds. -/
def search_node_timeout : Nat := 45

/-- Whole-run budget around `self.graph.ainvoke` in `run`, 25.0 seconds. -/
def graph_execution_timeout : Nat := 25

/-- Configuration fields of the shared AzureAISearchRetriever instance
held by AzureSearchClient. -/
structure RetrieverState where
  service_name : String
  index_name : String
  api_key : String
  content_key : String
  top_k : Int
  deriving DecidableEq

/-- Retriever as constructed once in AzureSearchClient init:
content_key "content" and top_k 5. -/
def init_retriever (service index key : String) : RetrieverState :=
  { service_name := service, index_name := index, api_key := key,
    content_key := "content", top_k := 5 }

/-- Effect of one `search_documents(query, top_k)` call on the shared
retriever configuration: the code executes
`if self.retriever.top_k != top_k: self.retriever.top_k = top_k`
before invoking the retriever. -/
def search_documents_client_effect (r : RetrieverState) (top_k : Int) : RetrieverState :=
  if r.top_k ≠ top_k then { r with top_k := top_k } else r

/-- Outcome of resolving one document id through `get_document_by_id`:
a document was found, the id-query returned no document, or the call
raised. -/
inductive ResolveResult where
  | found (title : Option String) (page_content : String)
  | notFound
  | raised (msg : String)
  deriving DecidableEq

/-- A LangChain Document as consumed by `get_document_context_tool`:
page_content string and an optional title in the metadata. -/
structure LCDocument where
  title : Option String
  page_content : String
  deriving DecidableEq

/-- The loop of `AzureSearchClient.get_document_context`: resolve each id
independently, appending found documents and skipping both missing
documents and per-id exceptions. -/
def get_document_context (resolve : String → ResolveResult) : List String → List LCDocument
  | [] => []
  | id :: rest =>
    match resolve id with
    | .found t c => { title := t, page_content := c } :: get_document_context resolve rest
    | .notFound => get_document_context resolve rest
    | .raised _ => get_document_context resolve rest

/-- Embedding of Python str.split(",") on a character list: n commas
yield n + 1 segments, empty segments included. -/
def split_comma : List Char → List (List Char)
  | [] => [[]]
  | c :: rest =>
    if c = ',' then [] :: split_comma rest
    else
      match split_comma rest with
      | [] => [[c]]
      | p :: ps => (c :: p) :: ps

/-- The id-list comprehension of `get_document_context_tool`:
split on commas, strip each part, keep the non-empty ones. -/
def parse_ids (s : String) : List String :=
  (((split_comma s.data).map pyStripL).filter (fun l => l ≠ [])).map String.mk

/-- Block rendered for one resolved document in
`get_document_context_tool`: title defaults to "Untitled", falsy
page_content defaults to "No content available". -/
def render_block (d : LCDocument) : String :=
  "**" ++ d.title.getD "Untitled" ++ "**\n" ++
    (if d.page_content = "" then "No content available" else d.page_content)

/-- The `get_document_context_tool` method of AzureSearchChain. The
result carries the returned string together with the number of
retrieval calls performed (one per parsed id). -/
def get_document_context_tool (resolve : String → ResolveResult) (document_ids : String) :
    String × Nat :=
  if parse_ids document_ids = [] then ("Error: No valid document IDs provided", 0)
  else if get_document_context resolve (parse_ids document_ids) = [] then
    ("No documents found for the provided IDs", (parse_ids document_ids).length)
  else
    (String.intercalate "\n\n---\n\n"
      ((get_document_context resolve (parse_ids document_ids)).map render_block),
     (parse_ids document_ids).length)

/-- Spec-side rendering of one document section, written from the spec
words: the section is "## {title or Document i}\n\n{content}" with the
default title used when the document has no title. -/
def spec_render_doc (i : Nat) (d : Doc) : String :=
  "## " ++ d.title.getD ("Document " ++ toString i) ++ "\n\n" ++ d.content.getD ""

/-- Spec-side section list: each document in order with 1-based index. -/
def spec_sections (docs : List Doc) : List String :=
  (List.enumFrom 1 docs).map (fun p => spec_render_doc p.1 p.2)

end AzureSearchMCP

namespace AzureSearchMCP

theorem context_sections_eq_enumFrom (docs : List Doc) :
    ∀ n, context_sections n docs =
      (List.enumFrom n docs).map (fun p => spec_render_doc p.1 p.2) := by
  induction docs with
  | nil => intro n; simp [context_sections]
  | cons d ds ih =>
      intro n
      simp [context_sections, List.enumFrom, ih (n + 1), render_section, spec_render_doc]

/-- C1: the `_prepare_context` node is a total function of the document
list: it leaves the error field untouched and writes exactly
`prepare_raw_context` of the documents, which is the fixed sentinel
string on the empty list and otherwise the 1-based indexed sections
joined with the exact separator; the two-document example renders as
specified. -/
theorem C1_prepare_context_spec (s : SearchState) :
    (prepare_context s).error = s.error
  ∧ (prepare_context s).raw_context = prepare_raw_context s.documents
  ∧ prepare_raw_context [] = "No documents found for the given query."
  ∧ (∀ d ds, prepare_raw_context (d :: ds) =
      String.intercalate "\n\n---\n\n" (spec_sections (d :: ds)))
  ∧ prepare_raw_context [⟨some "A", some "x"⟩, ⟨none, some "y"⟩] =
      "## A\n\nx\n\n---\n\n## Document 2\n\ny" := by
  refine ⟨rfl, rfl, rfl, ?_, by decide⟩
  intro d ds
  simp [prepare_raw_context, spec_sections, context_sections_eq_enumFrom]

/-- C2: with no language model configured, `_summarize_results` and
`_analyze_results` set their unavailability errors, while
`_format_results_structured` sets no error and deterministically writes
"Found N documents." followed by the raw context. -/
theorem C2_no_llm_asymmetry (s : SearchState) :
    (summarize_results none s).error =
      some "Summarizer chain is not available (LLM not configured)."
  ∧ (analyze_results none s).error =
      some "Analyzer chain is not available (LLM not configured)."
  ∧ (format_results_structured none s).error = s.error
  ∧ (format_results_structured none s).context =
      "Found " ++ toString s.documents.length ++ " documents.\n\n" ++ s.raw_context :=
  ⟨rfl, rfl, rfl, rfl⟩

/-- C10: when the query is blank and top_k is non-positive at the same
time, `_validate_input` reports only the query error: the top_k branch
is behind the elif and is never reached for a blank query. -/
theorem C10_query_error_precedence (s : SearchState)
    (hq : pyStrip s.query = "") (_hk : s.top_k ≤ 0) :
    (validate_input s).error = some "Query cannot be empty"
  ∧ (validate_input s).error ≠ some "top_k must be greater than 0" := by
  constructor
  · simp [validate_input, hq]
  · simp [validate_input, hq]

/-- C3: a blank query routes through handle_error with error exactly
"Query cannot be empty", final text "Error: Query cannot be empty",
success false, and zero retrieval calls. -/
theorem C3_blank_query_routes_to_handle_error (llm : Option LLMEnv)
    (search : SearchOutcome) (q st fmt : String) (k : Int)
    (hq : pyStrip q = "") :
    run_graph llm search (initial_state q st k fmt) =
      .ok ({ initial_state q st k fmt with
             error := some "Query cannot be empty",
             context := "Error: Query cannot be empty" }, 0)
  ∧ (run llm search q st k fmt).map (fun p => (p.1.success, p.1.context, p.2)) =
      .ok (false, "Error: Query cannot be empty", 0) := by
  have h1 : validate_input (initial_state q st k fmt) =
      { initial_state q st k fmt with error := some "Query cannot be empty" } := by
    simp [validate_input, initial_state, hq]
  have het : errTruthy (some "Query cannot be empty") = true := rfl
  have h2 : run_graph llm search (initial_state q st k fmt) =
      .ok ({ initial_state q st k fmt with
             error := some "Query cannot be empty",
             context := "Error: Query cannot be empty" }, 0) := by
    simp [run_graph, h1, should_continue_after_validation, het, handle_error, pyShowErr]
  exact ⟨h2, by simp [run, h2, het, Except.map]⟩

/-- C3 witness at a concrete whitespace-only query. -/
theorem C3_blank_query_witness :
    run_graph none (.success []) (initial_state " " "text" 5 "analysis") =
      .ok ({ initial_state " " "text" 5 "analysis" with
             error := some "Query cannot be empty",
             context := "Error: Query cannot be empty" }, 0)
  ∧ (run none (.success []) " " "text" 5 "analysis").map
      (fun p => (p.1.success, p.1.context, p.2)) =
      .ok (false, "Error: Query cannot be empty", 0) :=
  C3_blank_query_routes_to_handle_error none (.success []) " " "text" "analysis" 5
    (by decide)

/-- C4 counterexample: for the request with empty query and top_k 0 the
pipeline reports the query error, not "top_k must be greater than 0",
so the claim quantified over every query string fails. -/
theorem C4_counterexample_blank_query :
    run_graph none (.success []) (initial_state "" "text" 0 "analysis") =
      .ok ({ initial_state "" "text" 0 "analysis" with
             error := some "Query cannot be empty",
             context := "Error: Query cannot be empty" }, 0)
  ∧ some "Query cannot be empty" ≠ some "top_k must be greater than 0" :=
  ⟨rfl, by decide⟩

/-- C4 amended: for every request whose query is not blank and whose
top_k is non-positive, the pipeline reports exactly
"top_k must be greater than 0" and the response has success false. -/
theorem C4_topk_error_nonblank_query (llm : Option LLMEnv)
    (search : SearchOutcome) (q st fmt : String) (k : Int)
    (hq : pyStrip q ≠ "") (hk : k ≤ 0) :
    run_graph llm search (initial_state q st k fmt) =
      .ok ({ initial_state q st k fmt with
             error := some "top_k must be greater than 0",
             context := "Error: top_k must be greater than 0" }, 0)
  ∧ (run llm search q st k fmt).map (fun p => (p.1.success, p.1.context, p.2)) =
      .ok (false, "Error: top_k must be greater than 0", 0) := by
  have h1 : validate_input (initial_state q st k fmt) =
      { initial_state q st k fmt with error := some "top_k must be greater than 0" } := by
    simp [validate_input, initial_state, hq, hk]
  have het : errTruthy (some "top_k must be greater than 0") = true := rfl
  have h2 : run_graph llm search (initial_state q st k fmt) =
      .ok ({ initial_state q st k fmt with
             error := some "top_k must be greater than 0",
             context := "Error: top_k must be greater than 0" }, 0) := by
    simp [run_graph, h1, should_continue_after_validation, het, handle_error, pyShowErr]
  exact ⟨h2, by simp [run, h2, het, Except.map]⟩

/-- C4 amended witness at query "hello" and top_k 0. -/
theorem C4_topk_error_witness :
    run_graph none (.success []) (initial_state "hello" "text" 0 "analysis") =
      .ok ({ initial_state "hello" "text" 0 "analysis" with
             error := some "top_k must be greater than 0",
             context := "Error: top_k must be greater than 0" }, 0)
  ∧ (run none (.success []) "hello" "text" 0 "analysis").map
      (fun p => (p.1.success, p.1.context, p.2)) =
      .ok (false, "Error: top_k must be greater than 0", 0) :=
  C4_topk_error_nonblank_query none (.success []) "hello" "text" "analysis" 0
    (by decide) (by decide)

/-- C5: a stage-level retrieval timeout clears the documents, records an
error starting with "Node search timed out after", and the conditional
edge after the search node routes to handle_error; the graph run still
terminates in the handle_error projection after one retrieval call, and
the routing function is exactly the error-truthiness test. -/
theorem C5_search_timeout_degrades (llm : Option LLMEnv)
    (e q st fmt : String) (k : Int)
    (hq : pyStrip q ≠ "") (hk : 0 < k) :
    (search_documents (.nodeTimeout e)
        (validate_input (initial_state q st k fmt))).documents = []
  ∧ (∃ rest, (search_documents (.nodeTimeout e)
        (validate_input (initial_state q st k fmt))).error =
        some ("Node search timed out after " ++ rest))
  ∧ should_continue_after_search (search_documents (.nodeTimeout e)
        (validate_input (initial_state q st k fmt))) = "error"
  ∧ run_graph llm (.nodeTimeout e) (initial_state q st k fmt) =
      .ok ({ initial_state q st k fmt with
             documents := [],
             error := some ("Node search timed out after " ++ e ++ " seconds"),
             context := "Error: " ++ ("Node search timed out after " ++ e ++ " seconds") }, 1)
  ∧ (∀ t : SearchState, should_continue_after_search t =
        if errTruthy t.error then "error" else "continue") := by
  have hk' : ¬ (k ≤ 0) := by omega
  have hval : validate_input (initial_state q st k fmt) = initial_state q st k fmt := by
    simp [validate_input, initial_state, hq, hk']
  have hmsg : ("Node search timed out after " ++ e ++ " seconds") ≠ "" := by
    intro hcontra
    have hlen := congrArg String.length hcontra
    have l1 : "Node search timed out after ".length = 28 := rfl
    have l2 : " seconds".length = 8 := rfl
    have l3 : "".length = 0 := rfl
    simp only [String.length_append, l1, l2, l3] at hlen
    omega
  have hbeq : (("Node search timed out after " ++ e ++ " seconds") == "") = false := by
    cases hb : (("Node search timed out after " ++ e ++ " seconds") == "") with
    | false => rfl
    | true => exact absurd (eq_of_beq hb) hmsg
  have het : errTruthy (some ("Node search timed out after " ++ e ++ " seconds")) = true := by
    simp [errTruthy, hbeq]
  refine ⟨by simp [hval, search_documents], ?_, ?_, ?_, fun t => rfl⟩
  · exact ⟨e ++ " seconds", by simp [hval, search_documents, String.append_assoc]⟩
  · simp [hval, search_documents, should_continue_after_search, het]
  · have hce : ¬ (("continue" : String) = "error") := by decide
    have he0 : errTruthy (initial_state q st k fmt).error = false := rfl
    simp [run_graph, hval, should_continue_after_validation, should_continue_after_search,
      search_documents, he0, het, hbeq, hmsg, hce, handle_error, pyShowErr]

/-- C5 witness at a concrete query and elapsed-time string. -/
theorem C5_search_timeout_witness :
    (search_documents (.nodeTimeout "45.00")
        (validate_input (initial_state "hi" "text" 5 "structured"))).documents = []
  ∧ (∃ rest, (search_documents (.nodeTimeout "45.00")
        (validate_input (initial_state "hi" "text" 5 "structured"))).error =
        some ("Node search timed out after " ++ rest))
  ∧ should_continue_after_search (search_documents (.nodeTimeout "45.00")
        (validate_input (initial_state "hi" "text" 5 "structured"))) = "error"
  ∧ run_graph none (.nodeTimeout "45.00") (initial_state "hi" "text" 5 "structured") =
      .ok ({ initial_state "hi" "text" 5 "structured" with
             documents := [],
             error := some ("Node search timed out after " ++ "45.00" ++ " seconds"),
             context := "Error: " ++ ("Node search timed out after " ++ "45.00" ++ " seconds") }, 1)
  ∧ (∀ t : SearchState, should_continue_after_search t =
        if errTruthy t.error then "error" else "continue") :=
  C5_search_timeout_degrades none "45.00" "hi" "text" "structured" 5
    (by decide) (by decide)

/-- C6: the response projection of run satisfies success = false exactly
when the final graph state carries a truthy error, and used_llm is the
configuration bit of the completion model, whatever the output format
and outcome were. -/
theorem C6_response_projection (llm : Option LLMEnv) (search : SearchOutcome)
    (q st fmt : String) (k : Int) (r : PipelineResponse) (n : Nat)
    (h : run llm search q st k fmt = .ok (r, n)) :
    ∃ s : SearchState,
      run_graph llm search (initial_state q st k fmt) = .ok (s, n)
        ∧ (r.success = false ↔ errTruthy s.error = true)
        ∧ r.metadata.used_llm = llm.isSome := by
  cases hg : run_graph llm search (initial_state q st k fmt) with
  | error e =>
      simp [run, hg] at h
  | ok p =>
      obtain ⟨s, m⟩ := p
      simp only [run, hg, Except.ok.injEq, Prod.mk.injEq] at h
      obtain ⟨hr, hn⟩ := h
      subst hn
      subst hr
      refine ⟨s, rfl, ?_, rfl⟩
      cases herr : errTruthy s.error <;> simp

/-- C6 witness at a concrete structured-format run with no model. -/
theorem C6_response_projection_witness :
    ∃ s : SearchState,
      run_graph none (.success []) (initial_state "hi" "text" 5 "structured") =
        .ok (s, 1)
        ∧ (({ context := "Found 0 documents.\n\nNo documents found for the given query.",
              metadata := { total_results := 0, search_type := "text", query := "hi",
                            output_format := "structured", used_llm := false },
              documents := [], success := true } : PipelineResponse).success = false
            ↔ errTruthy s.error = true)
        ∧ ({ context := "Found 0 documents.\n\nNo documents found for the given query.",
             metadata := { total_results := 0, search_type := "text", query := "hi",
                           output_format := "structured", used_llm := false },
             documents := [], success := true } : PipelineResponse).metadata.used_llm =
            (none : Option LLMEnv).isSome :=
  C6_response_projection none (.success []) "hi" "text" "structured" 5
    { context := "Found 0 documents.\n\nNo documents found for the given query.",
      metadata := { total_results := 0, search_type := "text", query := "hi",
                    output_format := "structured", used_llm := false },
      documents := [], success := true } 1 rfl

/-- C7 counterexample: the declared budgets do not form a strictly
increasing chain from the retrieval call through the stage to the whole
run, because the whole-run budget (25) is smaller than the stage
budget (45). -/
theorem C7_counterexample_budget_chain :
    ¬ (retrieval_call_timeout < search_node_timeout ∧
       search_node_timeout < graph_execution_timeout) := by
  decide

/-- C7 amended: the inner chain retrieval call (25) < executor wrapper
(30) < stage budget (45) is strictly increasing, but the outermost
whole-run budget is 25, strictly below the stage budget it wraps. -/
theorem C7_budget_chain_actual :
    retrieval_call_timeout < execute_search_timeout
  ∧ execute_search_timeout < search_node_timeout
  ∧ graph_execution_timeout < search_node_timeout := by
  decide

/-- C8: evaluating the client-state effect of search_documents with
per-call top_k 3 on a freshly constructed client (configured top_k 5)
mutates the shared retriever configuration, contradicting the
unchanged-configuration claim. -/
theorem C8_shared_client_topk_mutation :
    (search_documents_client_effect (init_retriever "svc" "idx" "key") 3).top_k = 3
  ∧ (init_retriever "svc" "idx" "key").top_k = 5
  ∧ search_documents_client_effect (init_retriever "svc" "idx" "key") 3 ≠
      init_retriever "svc" "idx" "key" := by
  refine ⟨by decide, by decide, ?_⟩
  intro hcontra
  have := congrArg RetrieverState.top_k hcontra
  simp [search_documents_client_effect, init_retriever] at this

theorem dropWhile_eq_nil_of_all (p : Char → Bool) (l : List Char)
    (h : ∀ c ∈ l, p c = true) : l.dropWhile p = [] := by
  induction l with
  | nil => rfl
  | cons c rest ih =>
      have hc := h c (List.mem_cons_self c rest)
      rw [List.dropWhile_cons, if_pos hc]
      exact ih (fun x hx => h x (List.mem_cons_of_mem c hx))

theorem pyStripL_eq_nil_of_all_space (l : List Char)
    (h : ∀ c ∈ l, isPySpace c = true) : pyStripL l = [] := by
  have h1 : l.dropWhile isPySpace = [] := dropWhile_eq_nil_of_all _ l h
  simp [pyStripL, h1]

theorem split_comma_of_no_comma (l : List Char) (h : ∀ c ∈ l, ¬ (c = ',')) :
    split_comma l = [l] := by
  induction l with
  | nil => rfl
  | cons c rest ih =>
      have hc : ¬ (c = ',') := h c (List.mem_cons_self c rest)
      have hr : split_comma rest = [rest] :=
        ih (fun x hx => h x (List.mem_cons_of_mem c hx))
      simp [split_comma, hc, hr]

theorem parse_ids_of_all_space (s : String)
    (h : ∀ c ∈ s.data, isPySpace c = true) : parse_ids s = [] := by
  have hnc : ∀ c ∈ s.data, ¬ (c = ',') := by
    intro c hc hEq
    have hsp := h c hc
    rw [hEq] at hsp
    exact absurd hsp (by decide)
  have h1 : split_comma s.data = [s.data] := split_comma_of_no_comma s.data hnc
  have h2 : pyStripL s.data = [] := pyStripL_eq_nil_of_all_space s.data h
  simp [parse_ids, h1, h2]

/-- C9: the id-lookup tool is best-effort: a per-id exception or a
missing document is skipped and the batch continues; an empty or
whitespace-only id string yields the fixed no-valid-ids message with
zero retrieval calls; if no id resolves the fixed no-documents message
is returned; otherwise the output joins the rendered blocks of exactly
the successfully resolved documents with the fixed separator. -/
theorem C9_best_effort_lookup (resolve : String → ResolveResult) :
    (∀ id rest m, resolve id = .raised m →
        get_document_context resolve (id :: rest) = get_document_context resolve rest)
  ∧ (∀ id rest, resolve id = .notFound →
        get_document_context resolve (id :: rest) = get_document_context resolve rest)
  ∧ (∀ s : String, (∀ c ∈ s.data, isPySpace c = true) →
        get_document_context_tool resolve s = ("Error: No valid document IDs provided", 0))
  ∧ (∀ s : String, parse_ids s ≠ [] →
        get_document_context resolve (parse_ids s) = [] →
        get_document_context_tool resolve s =
          ("No documents found for the provided IDs", (parse_ids s).length))
  ∧ (∀ s : String, parse_ids s ≠ [] →
        get_document_context resolve (parse_ids s) ≠ [] →
        get_document_context_tool resolve s =
          (String.intercalate "\n\n---\n\n"
             ((get_document_context resolve (parse_ids s)).map render_block),
           (parse_ids s).length)) := by
  refine ⟨?_, ?_, ?_, ?_, ?_⟩
  · intro id rest m hm
    simp [get_document_context, hm]
  · intro id rest hm
    simp [get_document_context, hm]
  · intro s hs
    have hp := parse_ids_of_all_space s hs
    simp [get_document_context_tool, hp]
  · intro s h1 h2
    simp [get_document_context_tool, h1, h2]
  · intro s h1 h2
    simp [get_document_context_tool, h1, h2]

/-- Concrete resolver for the C9 witness: "id1" resolves, every other id
raises. -/
def resolve_example : String → ResolveResult :=
  fun id => if id = "id1" then .found (some "T1") "c1" else .raised "boom"

/-- C9 witness: skipping a raising id, the blank id string, the
zero-resolved case, and the joined-blocks case, all at concrete inputs. -/
theorem C9_best_effort_lookup_witness :
    get_document_context resolve_example ["bad", "id1"] =
      get_document_context resolve_example ["id1"]
  ∧ get_document_context_tool resolve_example "   " =
      ("Error: No valid document IDs provided", 0)
  ∧ get_document_context_tool resolve_example "bad" =
      ("No documents found for the provided IDs", 1)
  ∧ get_document_context_tool resolve_example "id1,bad" = ("**T1**\nc1", 2) :=
  ⟨(C9_best_effort_lookup resolve_example).1 "bad" ["id1"] "boom" (by decide),
   (C9_best_effort_lookup resolve_example).2.2.1 "   " (by decide),
   ((C9_best_effort_lookup resolve_example).2.2.2.1 "bad" (by decide)
     (by decide)).trans (by decide),
   ((C9_best_effort_lookup resolve_example).2.2.2.2 "id1,bad" (by decide)
     (by decide)).trans (by decide)⟩

/-- C10 witness: a concrete state with whitespace query and top_k 0. -/
theorem C10_query_error_precedence_witness :
    (validate_input (initial_state " " "text" 0 "analysis")).error =
      some "Query cannot be empty"
  ∧ (validate_input (initial_state " " "text" 0 "analysis")).error ≠
      some "top_k must be greater than 0" :=
  C10_query_error_precedence (initial_state " " "text" 0 "analysis")
    (by decide) (by decide)

end AzureSearchMCP
